import Mathlib

/-!
# Shallow embedding of `src/agent/ncp_openthread.cpp`

The file under verification is the `ControllerOpenThread` adapter of the
ot-br-posix border router: it binds the agent's poll-driven event loop to the
OpenThread stack library. The embedding below renders each member function as
a pure Lean function over an explicit state:

* `ControllerState` holds the members of the C++ class (`mConfig`,
  `mTriedAttach`, `mTimers`) together with the file-static reset flag
  `sReset` and two generation counters standing for the opaque
  `otInstance *mInstance` handle and the `mThreadHelper` object: creating a
  new instance or helper bumps the generation, so "the object was replaced"
  is observable while its internals stay abstract.
* The OpenThread stack itself is external to the repository; the values its
  getters return (`otThreadGetNetworkName`, `otThreadGetExtendedPanId`,
  `otThreadGetDeviceRole`, `otThreadGetPskc`, `otThreadGetVersion`) are
  collected in an `InstanceView` environment parameter, and the outcome of a
  fallible stack call (`otSetStateChangedCallback`,
  `ThreadHelper::TryResumeNetwork`) is passed in as its `otError` code.
* `EventEmitter::Emit` calls are modelled by returning the list of emitted
  events; the forwarding of the change bitmask to
  `ThreadHelper::StateChangedCallback` is modelled by returning the forwarded
  bitmask.
* `std::multimap<steady_clock::time_point, std::function<void()>> mTimers` is
  a list of (due time, callback identifier) pairs kept sorted by due time,
  which is the invariant the multimap maintains; times are naturals
  (microseconds are irrelevant to the claims). Callbacks are opaque
  identifiers: their effects land outside the adapter's state, and the timer
  loop of `Process` records a trace of invocations and removals so the order
  of the two operations on each entry is observable.
* Machine integers: `otChangedFlags` is a 32-bit mask whose relevant bit
  constants are far below 2^32 and are only combined with `&`, so plain `Nat`
  with `&&&` is exact; `otError` and the device role are small enums carried
  as `Nat` so that the C `switch` default branches keep their "any other
  value" meaning.

Constant values: the `OT_CHANGED_*` bits and `OT_DEVICE_ROLE_*` codes are
those of the OpenThread public header (external to this repository); the
`kEvent*` codes and `otbrError` enumerators are declared in repository
headers outside the file under verification — for the claims only their
distinctness matters.
-/

namespace NcpOpenThread

/-- Error enumeration of `otbrError` (repository header `common/types.hpp`):
distinct enumerators, of which this file uses `OTBR_ERROR_NONE` and
`OTBR_ERROR_OPENTHREAD`. -/
inductive OtbrError where
  | OTBR_ERROR_NONE
  | OTBR_ERROR_ERRNO
  | OTBR_ERROR_DBUS
  | OTBR_ERROR_MDNS
  | OTBR_ERROR_OPENTHREAD
deriving DecidableEq, Repr

/-- The OpenThread success code `OT_ERROR_NONE`; other `otError` values are
nonzero. -/
def OT_ERROR_NONE : Nat := 0

/-- `OT_CHANGED_THREAD_ROLE` bit of `otChangedFlags` (OpenThread header). -/
def OT_CHANGED_THREAD_ROLE : Nat := 4

/-- `OT_CHANGED_THREAD_NETWORK_NAME` bit of `otChangedFlags`. -/
def OT_CHANGED_THREAD_NETWORK_NAME : Nat := 65536

/-- `OT_CHANGED_THREAD_EXT_PANID` bit of `otChangedFlags`. -/
def OT_CHANGED_THREAD_EXT_PANID : Nat := 131072

/-- `OT_CHANGED_PSKC` bit of `otChangedFlags`. -/
def OT_CHANGED_PSKC : Nat := 524288

/-- `OT_DEVICE_ROLE_DISABLED` value of `otDeviceRole`. -/
def OT_DEVICE_ROLE_DISABLED : Nat := 0

/-- `OT_DEVICE_ROLE_DETACHED` value of `otDeviceRole`. -/
def OT_DEVICE_ROLE_DETACHED : Nat := 1

/-- `OT_DEVICE_ROLE_CHILD` value of `otDeviceRole`. -/
def OT_DEVICE_ROLE_CHILD : Nat := 2

/-- `OT_DEVICE_ROLE_ROUTER` value of `otDeviceRole`. -/
def OT_DEVICE_ROLE_ROUTER : Nat := 3

/-- `OT_DEVICE_ROLE_LEADER` value of `otDeviceRole`. -/
def OT_DEVICE_ROLE_LEADER : Nat := 4

/-- Event code `kEventExtPanId` (repository event-emitter header; the five
codes are distinct small integers). -/
def kEventExtPanId : Nat := 0

/-- Event code `kEventThreadState`. -/
def kEventThreadState : Nat := 1

/-- Event code `kEventNetworkName`. -/
def kEventNetworkName : Nat := 2

/-- Event code `kEventPSKc`. -/
def kEventPSKc : Nat := 3

/-- Event code `kEventThreadVersion`. -/
def kEventThreadVersion : Nat := 4

/-- The stack-side values read through the OpenThread getters; an environment
parameter, since the stack is outside this repository. -/
structure InstanceView where
  networkName : String
  extPanId : Nat
  deviceRole : Nat
  pskc : Nat
  version : Nat
deriving DecidableEq, Repr

/-- One `EventEmitter::Emit` call, tagged by the event code it was emitted
under and carrying the emitted value. -/
inductive EmitEvent where
  | networkName (v : String)
  | extPanId (v : Nat)
  | threadState (attached : Bool)
  | pskc (v : Nat)
  | threadVersion (v : Nat)
deriving DecidableEq, Repr

/-- The `otPlatformConfig mConfig` member filled in by the constructor. -/
structure Config where
  mInterfaceName : String
  mRadioFile : String
  mRadioConfig : String
  mResetRadio : Bool
  mSpeedUpFactor : Nat
deriving DecidableEq, Repr

/-- State of the adapter: the class members plus the file-static `sReset`
flag. `mInstanceGen` is a generation counter for the opaque `mInstance`
handle (bumped whenever `otSysInit` creates a fresh instance) and
`mHelperGen` records which generation's `ThreadHelper` is currently held
(`none` before the first successful `Init`). -/
structure ControllerState where
  mConfig : Config
  mInstanceGen : Nat
  mHelperGen : Option Nat
  mTriedAttach : Bool
  mTimers : List (Nat × Nat)
  sReset : Bool
deriving DecidableEq, Repr

/-- One event of the timer-loop trace of `Process`: the callback of an entry
was invoked, or an entry was erased from `mTimers`. -/
inductive TimerEvent where
  | invoke (entry : Nat × Nat)
  | remove (entry : Nat × Nat)
deriving DecidableEq, Repr

/-- Environment of one `Process` iteration: the value of
`steady_clock::now()` and the `otError` that
`mThreadHelper->TryResumeNetwork()` would return if called. -/
structure ProcessInput where
  now : Nat
  resumeResult : Nat
deriving DecidableEq, Repr

namespace ControllerOpenThread

/-- The `switch (otThreadGetDeviceRole(mInstance))` computing `attached`,
appearing verbatim in both `HandleStateChanged` and `RequestEvent`:
`OT_DEVICE_ROLE_CHILD`, `OT_DEVICE_ROLE_ROUTER` and `OT_DEVICE_ROLE_LEADER`
set `attached = true`; the `default` branch leaves it `false`. -/
def deviceRoleAttached (role : Nat) : Bool :=
  match role with
  | 2 => true
  | 3 => true
  | 4 => true
  | _ => false

/-- `ControllerOpenThread::ControllerOpenThread`: stores the configuration
(`mResetRadio = true`, `mSpeedUpFactor = 1`) and clears `mTriedAttach`;
`mTimers` default-constructs empty and `mThreadHelper` is null. The prior
values of the instance generation and of the file-static `sReset` are
parameters, since the constructor touches neither. -/
def construct (aInterfaceName aRadioFile aRadioConfig : String)
    (instanceGen0 : Nat) (sReset0 : Bool) : ControllerState :=
  { mConfig := { mInterfaceName := aInterfaceName
                 mRadioFile := aRadioFile
                 mRadioConfig := aRadioConfig
                 mResetRadio := true
                 mSpeedUpFactor := 1 }
    mInstanceGen := instanceGen0
    mHelperGen := none
    mTriedAttach := false
    mTimers := []
    sReset := sReset0 }

/-- `ControllerOpenThread::Init`: `otSysInit` creates a fresh instance
(generation bump), `otCliUartInit` runs, then the single
`otSetStateChangedCallback` call is made; on `OT_ERROR_NONE` a new
`ThreadHelper` is constructed, otherwise `VerifyOrExit` jumps to `exit`
with `error = OTBR_ERROR_OPENTHREAD`, leaving `mThreadHelper` as it was.
The environment is the list of results successive registration attempts
would return; the code consults only the first. -/
def Init (s : ControllerState) (regResults : List Nat) :
    OtbrError × ControllerState :=
  if regResults.headD 1 = OT_ERROR_NONE then
    (OtbrError.OTBR_ERROR_NONE,
      { s with mInstanceGen := s.mInstanceGen + 1
               mHelperGen := some (s.mInstanceGen + 1) })
  else
    (OtbrError.OTBR_ERROR_OPENTHREAD,
      { s with mInstanceGen := s.mInstanceGen + 1 })

/-- `ControllerOpenThread::HandleStateChanged`: emits the network name when
`OT_CHANGED_THREAD_NETWORK_NAME` is set, the extended PAN ID when
`OT_CHANGED_THREAD_EXT_PANID` is set, and the role-derived attachment state
when `OT_CHANGED_THREAD_ROLE` is set, then forwards the full bitmask to
`mThreadHelper->StateChangedCallback(aFlags)` (second component). -/
def HandleStateChanged (inst : InstanceView) (aFlags : Nat) :
    List EmitEvent × Nat :=
  ((if aFlags &&& OT_CHANGED_THREAD_NETWORK_NAME ≠ 0 then
      [EmitEvent.networkName inst.networkName]
    else []) ++
   (if aFlags &&& OT_CHANGED_THREAD_EXT_PANID ≠ 0 then
      [EmitEvent.extPanId inst.extPanId]
    else []) ++
   (if aFlags &&& OT_CHANGED_THREAD_ROLE ≠ 0 then
      [EmitEvent.threadState (deviceRoleAttached inst.deviceRole)]
    else []),
   aFlags)

/-- The timer loop of `ControllerOpenThread::Process`:
`while (!mTimers.empty() && mTimers.begin()->first <= now)` first runs
`mTimers.begin()->second()` and then `mTimers.erase(mTimers.begin())`, so
the trace records the invocation of each due entry followed by its removal.
Returns the trace and the remaining queue. -/
def processTimers : List (Nat × Nat) → Nat → List TimerEvent × List (Nat × Nat)
  | [], _ => ([], [])
  | e :: rest, now =>
    if e.1 ≤ now then
      (TimerEvent.invoke e :: TimerEvent.remove e :: (processTimers rest now).1,
       (processTimers rest now).2)
    else
      ([], e :: rest)

/-- `ControllerOpenThread::Process`: `otTaskletsProcess` and
`otSysMainloopProcess` act only on the external stack; then the timer loop
runs, and finally `if (!mTriedAttach && mThreadHelper->TryResumeNetwork() ==
OT_ERROR_NONE) mTriedAttach = true;` — the `&&` short-circuits, so
`TryResumeNetwork` is invoked exactly when `mTriedAttach` is still false
(the returned `Bool` records that invocation). -/
def Process (s : ControllerState) (inp : ProcessInput) :
    (List TimerEvent × Bool) × ControllerState :=
  (((processTimers s.mTimers inp.now).1, !s.mTriedAttach),
   { s with
       mTimers := (processTimers s.mTimers inp.now).2
       mTriedAttach :=
         if s.mTriedAttach then true
         else decide (inp.resumeResult = OT_ERROR_NONE) })

/-- Iterated `Process` over a list of iteration environments; collects the
per-iteration `TryResumeNetwork`-invoked flags. -/
def runProcess : ControllerState → List ProcessInput → List Bool × ControllerState
  | s, [] => ([], s)
  | s, inp :: rest =>
    ((Process s inp).1.2 :: (runProcess (Process s inp).2 rest).1,
     (runProcess (Process s inp).2 rest).2)

/-- `ControllerOpenThread::UpdateFdSet`, timeout computation only (the
`fd_set` merging is delegated to `otSysMainloopUpdate` on the external
stack): starting from the mainloop's own requested timeout, it is forced to
zero when `otTaskletsArePending`, and otherwise clamped against the earliest
entry of `mTimers` — zero if that entry is already past `now`, else the
minimum of the requested timeout and the remaining delay. Times are in
microseconds as naturals. -/
def UpdateFdSet (s : ControllerState) (taskletsPending : Bool)
    (now libTimeout : Nat) : Nat :=
  if taskletsPending then 0
  else
    match s.mTimers with
    | [] => libTimeout
    | e :: _ => if e.1 < now then 0 else min libTimeout (e.1 - now)

/-- `ControllerOpenThread::Reset`: `otInstanceFinalize` and `otSysDeinit`
tear the instance down, `Init()` (return value ignored) recreates it, and
`sReset = false` clears the flag. -/
def Reset (s : ControllerState) (regResults : List Nat) : ControllerState :=
  { (Init s regResults).2 with sReset := false }

/-- `ControllerOpenThread::IsResetRequested`: reads the file-static flag. -/
def IsResetRequested (s : ControllerState) : Bool := s.sReset

/-- `ControllerOpenThread::RequestEvent`: `ret` is initialised to
`OTBR_ERROR_NONE` and never assigned afterwards; the `switch (aEvent)`
emits the queried value for the five known codes and hits `assert(false)`
on any other code, modelled as `none`. -/
def RequestEvent (inst : InstanceView) (aEvent : Nat) :
    Option (OtbrError × List EmitEvent) :=
  if aEvent = kEventExtPanId then
    some (OtbrError.OTBR_ERROR_NONE, [EmitEvent.extPanId inst.extPanId])
  else if aEvent = kEventThreadState then
    some (OtbrError.OTBR_ERROR_NONE,
      [EmitEvent.threadState (deviceRoleAttached inst.deviceRole)])
  else if aEvent = kEventNetworkName then
    some (OtbrError.OTBR_ERROR_NONE, [EmitEvent.networkName inst.networkName])
  else if aEvent = kEventPSKc then
    some (OtbrError.OTBR_ERROR_NONE, [EmitEvent.pskc inst.pskc])
  else if aEvent = kEventThreadVersion then
    some (OtbrError.OTBR_ERROR_NONE, [EmitEvent.threadVersion inst.version])
  else
    none

/-- Ordered insertion into the timer list: `std::multimap::insert` places a
new entry after all entries with a smaller or equal key (upper bound), which
keeps the list sorted by due time. -/
def insertTimer (e : Nat × Nat) : List (Nat × Nat) → List (Nat × Nat)
  | [] => [e]
  | x :: xs => if e.1 < x.1 then e :: x :: xs else x :: insertTimer e xs

/-- `ControllerOpenThread::PostTimerTask`: inserts the (time point, task)
pair into `mTimers`. -/
def PostTimerTask (s : ControllerState) (aTimePoint aTask : Nat) :
    ControllerState :=
  { s with mTimers := insertTimer (aTimePoint, aTask) s.mTimers }

end ControllerOpenThread

/-- `otPlatReset`: sets the file-static `sReset` flag. -/
def otPlatReset (s : ControllerState) : ControllerState :=
  { s with sReset := true }

/-- The entry an event of the timer trace is about. -/
def entryOf : TimerEvent → Nat × Nat
  | TimerEvent.invoke e => e
  | TimerEvent.remove e => e

/-- Whether a trace event is a callback invocation. -/
def isInvoke : TimerEvent → Bool
  | TimerEvent.invoke _ => true
  | TimerEvent.remove _ => false

/-- The ordering the claim asserts of the timer loop: every invocation in the
trace is immediately preceded by the removal of the invoked entry.
Reducible so that decidability of a concrete instance is found by search. -/
@[reducible]
def removedBeforeInvoked (tr : List TimerEvent) : Prop :=
  ∀ i : Fin tr.length, isInvoke (tr.get i) = true →
    ∃ j : Fin tr.length, (j : Nat) + 1 = (i : Nat)
      ∧ tr.get j = TimerEvent.remove (entryOf (tr.get i))

/-- A concrete stack view, used by concrete-input theorems. -/
def inst0 : InstanceView :=
  { networkName := "OpenThread"
    extPanId := 3781220529027845617
    deviceRole := OT_DEVICE_ROLE_ROUTER
    pskc := 1
    version := 2 }

/-- A concrete adapter state, used by concrete-input theorems. -/
def state0 : ControllerState :=
  ControllerOpenThread.construct "wpan0" "/dev/ttyUSB0" "" 0 false

/-- The `switch` on the device role recognises exactly the child, router and
leader roles. -/
theorem deviceRoleAttached_eq_decide (r : Nat) :
    ControllerOpenThread.deviceRoleAttached r
      = decide (r = OT_DEVICE_ROLE_CHILD ∨ r = OT_DEVICE_ROLE_ROUTER
          ∨ r = OT_DEVICE_ROLE_LEADER) := by
  rcases r with _ | _ | _ | _ | _ | n
  · rfl
  · rfl
  · rfl
  · rfl
  · rfl
  · simp [ControllerOpenThread.deviceRoleAttached, OT_DEVICE_ROLE_CHILD,
      OT_DEVICE_ROLE_ROUTER, OT_DEVICE_ROLE_LEADER]

/-- Claim C4: `Init` fails exactly when the state-change callback
registration fails; the failure is surfaced as `OTBR_ERROR_OPENTHREAD`, a
successful registration yields `OTBR_ERROR_NONE`, and only the first
registration outcome is ever consulted (no retry). -/
theorem init_error_iff_registration (s : ControllerState) (r : Nat)
    (rest rest2 : List Nat) :
    ((ControllerOpenThread.Init s (r :: rest)).1 = OtbrError.OTBR_ERROR_NONE
        ↔ r = OT_ERROR_NONE)
    ∧ ((ControllerOpenThread.Init s (r :: rest)).1
        = if r = OT_ERROR_NONE then OtbrError.OTBR_ERROR_NONE
          else OtbrError.OTBR_ERROR_OPENTHREAD)
    ∧ ControllerOpenThread.Init s (r :: rest)
        = ControllerOpenThread.Init s (r :: rest2) := by
  refine ⟨?_, ?_, ?_⟩ <;>
    simp only [ControllerOpenThread.Init, List.headD_cons] <;>
    split <;> simp_all

/-- Claim C6: the process-wide reset flag reads true after `otPlatReset` has
run and false after `Reset` has completed, whatever its prior value. -/
theorem reset_flag_set_and_cleared (s : ControllerState) (regResults : List Nat) :
    ControllerOpenThread.IsResetRequested (otPlatReset s) = true
    ∧ ControllerOpenThread.IsResetRequested
        (ControllerOpenThread.Reset s regResults) = false :=
  ⟨rfl, rfl⟩

/-- Claim C7: both the state-change relay (at the role-changed bit) and
`RequestEvent` (at the thread-state code) publish attached = true exactly
for the child, router and leader roles; every other role value is published
as not attached. -/
theorem attached_iff_child_router_leader (inst : InstanceView) :
    (ControllerOpenThread.HandleStateChanged inst OT_CHANGED_THREAD_ROLE).1
      = [EmitEvent.threadState (decide (inst.deviceRole = OT_DEVICE_ROLE_CHILD
          ∨ inst.deviceRole = OT_DEVICE_ROLE_ROUTER
          ∨ inst.deviceRole = OT_DEVICE_ROLE_LEADER))]
    ∧ ControllerOpenThread.RequestEvent inst kEventThreadState
      = some (OtbrError.OTBR_ERROR_NONE,
          [EmitEvent.threadState (decide (inst.deviceRole = OT_DEVICE_ROLE_CHILD
            ∨ inst.deviceRole = OT_DEVICE_ROLE_ROUTER
            ∨ inst.deviceRole = OT_DEVICE_ROLE_LEADER))]) := by
  have h1 : (4 : Nat) &&& 65536 = 0 := by decide
  have h2 : (4 : Nat) &&& 131072 = 0 := by decide
  have h3 : ¬ (4 : Nat) &&& 4 = 0 := by decide
  constructor
  · simp [ControllerOpenThread.HandleStateChanged, deviceRoleAttached_eq_decide,
      OT_CHANGED_THREAD_ROLE, OT_CHANGED_THREAD_NETWORK_NAME,
      OT_CHANGED_THREAD_EXT_PANID, h1, h2, h3]
  · simp [ControllerOpenThread.RequestEvent, deviceRoleAttached_eq_decide,
      kEventExtPanId, kEventThreadState]

/-- Claim C8: the configuration is fixed by the constructor (reset-on-start
true, speed-up factor 1) and no later operation that touches the adapter's
state (`Init`, `Process`, `Reset`, `PostTimerTask`, `otPlatReset`) changes
any of its fields; `UpdateFdSet`, `RequestEvent` and `HandleStateChanged`
write no member at all in the embedding. -/
theorem config_established_once (n f c : String) (g : Nat) (b : Bool)
    (s : ControllerState) (rs : List Nat) (inp : ProcessInput) (tp task : Nat) :
    (ControllerOpenThread.construct n f c g b).mConfig
      = { mInterfaceName := n
          mRadioFile := f
          mRadioConfig := c
          mResetRadio := true
          mSpeedUpFactor := 1 }
    ∧ ((ControllerOpenThread.Init s rs).2).mConfig = s.mConfig
    ∧ ((ControllerOpenThread.Process s inp).2).mConfig = s.mConfig
    ∧ (ControllerOpenThread.Reset s rs).mConfig = s.mConfig
    ∧ (ControllerOpenThread.PostTimerTask s tp task).mConfig = s.mConfig
    ∧ (otPlatReset s).mConfig = s.mConfig := by
  have hInit : ((ControllerOpenThread.Init s rs).2).mConfig = s.mConfig := by
    simp only [ControllerOpenThread.Init]
    split <;> rfl
  exact ⟨rfl, hInit, rfl, hInit, rfl, rfl⟩

/-- Claim C9: `RequestEvent` reaches `assert(false)` exactly on event codes
other than the five enumerated ones, and on each of the five it returns
`OTBR_ERROR_NONE` (the return value is never assigned an error). -/
theorem requestEvent_codes (inst : InstanceView) (aEvent : Nat) :
    (ControllerOpenThread.RequestEvent inst aEvent).map Prod.fst
      = if aEvent = kEventExtPanId ∨ aEvent = kEventThreadState
           ∨ aEvent = kEventNetworkName ∨ aEvent = kEventPSKc
           ∨ aEvent = kEventThreadVersion
        then some OtbrError.OTBR_ERROR_NONE
        else none := by
  simp only [ControllerOpenThread.RequestEvent]
  split_ifs <;> simp_all

/-- Claim C1 counterexample: a change bitmask consisting of exactly the PSKc
bit is delivered to the relay; the bit is set, yet the relay publishes
nothing at all (in particular no PSKc event), while it still forwards the
full bitmask to the helper. -/
theorem stateChanged_pskc_not_republished :
    OT_CHANGED_PSKC &&& OT_CHANGED_PSKC ≠ 0
    ∧ (ControllerOpenThread.HandleStateChanged inst0 OT_CHANGED_PSKC).1 = []
    ∧ (∀ v, EmitEvent.pskc v
        ∉ (ControllerOpenThread.HandleStateChanged inst0 OT_CHANGED_PSKC).1)
    ∧ (ControllerOpenThread.HandleStateChanged inst0 OT_CHANGED_PSKC).2
        = OT_CHANGED_PSKC := by
  have h : (ControllerOpenThread.HandleStateChanged inst0 OT_CHANGED_PSKC).1
      = [] := by decide
  refine ⟨by decide, h, ?_, rfl⟩
  intro v hv
  rw [h] at hv
  exact List.not_mem_nil _ hv

/-- Claim C1 as amended: on every delivered bitmask the relay publishes the
network name, the extended PAN ID and the role-derived attachment state
exactly when the corresponding change bit is set; it never publishes PSKc
or the protocol version (those are published only on request through
`RequestEvent`); and in every case it forwards the full, unmodified bitmask
to the network-management helper. -/
theorem stateChanged_relay_amended (inst : InstanceView) (aFlags : Nat) :
    ((EmitEvent.networkName inst.networkName
        ∈ (ControllerOpenThread.HandleStateChanged inst aFlags).1)
      ↔ aFlags &&& OT_CHANGED_THREAD_NETWORK_NAME ≠ 0)
    ∧ ((EmitEvent.extPanId inst.extPanId
        ∈ (ControllerOpenThread.HandleStateChanged inst aFlags).1)
      ↔ aFlags &&& OT_CHANGED_THREAD_EXT_PANID ≠ 0)
    ∧ ((EmitEvent.threadState (ControllerOpenThread.deviceRoleAttached inst.deviceRole)
        ∈ (ControllerOpenThread.HandleStateChanged inst aFlags).1)
      ↔ aFlags &&& OT_CHANGED_THREAD_ROLE ≠ 0)
    ∧ (∀ v, EmitEvent.pskc v
        ∉ (ControllerOpenThread.HandleStateChanged inst aFlags).1)
    ∧ (∀ v, EmitEvent.threadVersion v
        ∉ (ControllerOpenThread.HandleStateChanged inst aFlags).1)
    ∧ (ControllerOpenThread.HandleStateChanged inst aFlags).2 = aFlags := by
  simp only [ControllerOpenThread.HandleStateChanged]
  split_ifs <;> simp_all

/-- Claim C10 counterexample: at a concrete state, a reset (whose
re-registration succeeds) replaces the network-management helper object —
a state change beyond the library instance and the reset flag, so `Reset`
does not change "only the library instance and the reset flag". -/
theorem reset_recreates_helper :
    (ControllerOpenThread.Reset state0 [OT_ERROR_NONE]).mHelperGen
        ≠ state0.mHelperGen
    ∧ (ControllerOpenThread.Reset state0 [OT_ERROR_NONE]).mHelperGen = some 1
    ∧ state0.mHelperGen = none := by
  refine ⟨?_, by decide, by decide⟩
  decide

/-- Claim C10 as amended: `Reset` changes only the library instance (torn
down and recreated), the network-management helper (recreated by the
re-initialisation), and the process-wide reset flag (cleared); the deferred
timer queue, the tried-attach flag and the configuration are unchanged, so
timers posted before the reset remain scheduled and a resume attempt that
already succeeded is not retried. -/
theorem reset_frame (s : ControllerState) (rs : List Nat) :
    (ControllerOpenThread.Reset s rs).mTimers = s.mTimers
    ∧ (ControllerOpenThread.Reset s rs).mTriedAttach = s.mTriedAttach
    ∧ (ControllerOpenThread.Reset s rs).mConfig = s.mConfig
    ∧ (ControllerOpenThread.Reset s rs).sReset = false
    ∧ (ControllerOpenThread.Reset s rs).mInstanceGen = s.mInstanceGen + 1 := by
  refine ⟨?_, ?_, ?_, rfl, ?_⟩ <;>
    simp only [ControllerOpenThread.Reset, ControllerOpenThread.Init] <;>
    split <;> rfl

/-- Claim C2 counterexample: a queue holding one due entry, processed at its
due time. The trace is invocation first, removal second — the entry is
still in the queue while its callback runs — refuting "removed from the
queue immediately before its callback is invoked". -/
theorem timer_invoked_before_removed :
    (ControllerOpenThread.processTimers [(0, 7)] 0).1
      = [TimerEvent.invoke (0, 7), TimerEvent.remove (0, 7)]
    ∧ ¬ removedBeforeInvoked (ControllerOpenThread.processTimers [(0, 7)] 0).1 := by
  constructor
  · decide
  · decide

/-- Claim C2 as amended: one `Process` step pops and invokes exactly the
entries due at or before the current time, in ascending due-time order
(the queue is sorted, and the fired entries are its due prefix in order);
each fired entry is removed immediately after its callback is invoked; the
strictly later entries remain in the queue unchanged. -/
theorem processTimers_fires_due_in_order (q : List (Nat × Nat)) (now : Nat)
    (hq : List.Pairwise (fun a b => a.1 ≤ b.1) q) :
    (ControllerOpenThread.processTimers q now).1
      = (q.filter (fun e => decide (e.1 ≤ now))).flatMap
          (fun e => [TimerEvent.invoke e, TimerEvent.remove e])
    ∧ (ControllerOpenThread.processTimers q now).2
      = q.filter (fun e => decide (now < e.1)) := by
  induction q with
  | nil => exact ⟨rfl, rfl⟩
  | cons e rest ih =>
    rcases List.pairwise_cons.mp hq with ⟨he, hrest⟩
    obtain ⟨ih1, ih2⟩ := ih hrest
    by_cases h : e.1 ≤ now
    · constructor
      · simp [ControllerOpenThread.processTimers, h, ih1]
      · simp [ControllerOpenThread.processTimers, h, ih2, Nat.not_lt.mpr h]
    · have hall : ∀ x ∈ rest, now < x.1 := fun x hx =>
        Nat.lt_of_lt_of_le (Nat.not_le.mp h) (he x hx)
      constructor
      · have hnil : rest.filter (fun e => decide (e.1 ≤ now)) = [] :=
          List.filter_eq_nil_iff.mpr fun x hx => by
            simpa using Nat.not_le.mpr (hall x hx)
        simp [ControllerOpenThread.processTimers, h, hnil]
      · have hself : rest.filter (fun e => decide (now < e.1)) = rest :=
          List.filter_eq_self.mpr fun x hx => by simpa using hall x hx
        simp [ControllerOpenThread.processTimers, h, hself, Nat.not_le.mp h]

/-- Claim C2 witness: a sorted two-entry queue processed between the two due
times fires exactly the first entry and keeps the second. -/
theorem processTimers_fires_due_in_order_witness :
    (ControllerOpenThread.processTimers [(1, 10), (3, 11)] 2).1
      = (([(1, 10), (3, 11)] : List (Nat × Nat)).filter
            (fun e => decide (e.1 ≤ 2))).flatMap
          (fun e => [TimerEvent.invoke e, TimerEvent.remove e])
    ∧ (ControllerOpenThread.processTimers [(1, 10), (3, 11)] 2).2
      = ([(1, 10), (3, 11)] : List (Nat × Nat)).filter
          (fun e => decide (2 < e.1)) :=
  processTimers_fires_due_in_order [(1, 10), (3, 11)] 2 (by decide)

/-- Claim C3: the timeout `UpdateFdSet` computes is the minimum of the
library's own requested timeout, zero when tasklets are pending, and the
(zero-clamped, via truncated subtraction) delay until the earliest deferred
timer when one exists; in particular it never exceeds the requested
timeout. The sortedness hypothesis is the multimap invariant making the
queue's first entry the earliest. -/
theorem updateFdSet_min_of_three (s : ControllerState) (p : Bool)
    (now lib : Nat)
    (hq : List.Pairwise (fun (a b : Nat × Nat) => a.1 ≤ b.1) s.mTimers) :
    (ControllerOpenThread.UpdateFdSet s p now lib
      = List.foldr min lib
          ((if p then [0] else []) ++
            (match s.mTimers with
             | [] => []
             | e :: _ => [e.1 - now])))
    ∧ ControllerOpenThread.UpdateFdSet s p now lib ≤ lib := by
  clear hq
  unfold ControllerOpenThread.UpdateFdSet
  cases p <;> rcases hm : s.mTimers with _ | ⟨e, rest⟩ <;>
    refine ⟨?_, ?_⟩ <;>
    simp [hm, Nat.min_def] <;>
    (try split_ifs) <;>
    omega

/-- Claim C3 witness: pending tasklets force a zero timeout even though a
timer is scheduled and the library asked for 10. -/
theorem updateFdSet_min_of_three_witness :
    (ControllerOpenThread.UpdateFdSet
        { state0 with mTimers := [(5, 1), (9, 2)] } true 3 10
      = List.foldr min 10
          ((if true then [0] else []) ++
            (match ({ state0 with mTimers := [(5, 1), (9, 2)] }
                : ControllerState).mTimers with
             | [] => []
             | e :: _ => [e.1 - 3])))
    ∧ ControllerOpenThread.UpdateFdSet
        { state0 with mTimers := [(5, 1), (9, 2)] } true 3 10 ≤ 10 :=
  updateFdSet_min_of_three { state0 with mTimers := [(5, 1), (9, 2)] }
    true 3 10 (by decide)

/-- Claim C5: once the tried-attach flag is set (which is what a successful
`TryResumeNetwork` does), no later `Process` iteration invokes the resume
action again, over every sequence of iteration environments; the flag also
never falls back to false. -/
theorem tryResumeNetwork_once (s : ControllerState) (inps : List ProcessInput)
    (h : s.mTriedAttach = true) :
    (∀ b ∈ (ControllerOpenThread.runProcess s inps).1, b = false)
    ∧ (ControllerOpenThread.runProcess s inps).2.mTriedAttach = true := by
  revert s
  induction inps with
  | nil =>
    intro s h
    exact ⟨fun b hb => absurd hb (List.not_mem_nil b), h⟩
  | cons inp rest ih =>
    intro s h
    have h2 : ((ControllerOpenThread.Process s inp).2).mTriedAttach = true := by
      simp [ControllerOpenThread.Process, h]
    obtain ⟨ih1, ih2⟩ := ih (ControllerOpenThread.Process s inp).2 h2
    constructor
    · intro b hb
      simp only [ControllerOpenThread.runProcess, List.mem_cons] at hb
      rcases hb with hb1 | hb2
      · rw [hb1]
        simp [ControllerOpenThread.Process, h]
      · exact ih1 b hb2
    · exact ih2

/-- Claim C5 witness: starting from a state whose tried-attach flag is set,
two further iterations (one of which would report resume success) never
invoke the resume action, and the flag stays set. -/
theorem tryResumeNetwork_once_witness :
    (∀ b ∈ (ControllerOpenThread.runProcess { state0 with mTriedAttach := true }
        [{ now := 1, resumeResult := 0 }, { now := 2, resumeResult := 1 }]).1,
      b = false)
    ∧ (ControllerOpenThread.runProcess { state0 with mTriedAttach := true }
        [{ now := 1, resumeResult := 0 }, { now := 2, resumeResult := 1 }]).2.mTriedAttach
      = true :=
  tryResumeNetwork_once { state0 with mTriedAttach := true }
    [{ now := 1, resumeResult := 0 }, { now := 2, resumeResult := 1 }] rfl

end NcpOpenThread
